import Mathlib

/-!
Verification of `tee-requester` (src/tee_client.py).

The single source file is a Python asyncio polling client.  We give a
shallow embedding: Python strings are Lean `String`s (operated on through
their `List Char` data), the network is an explicit environment record
mapping each request to its response (`Except` for requests whose handling
raises an exception), JSON values are an inductive `JVal`, and the
per-endpoint counters are a `Stats` record.  Each definition mirrors one
function of the source, line references in the doc comments.
-/

/-- Python `s.startswith(c)` for a single character `c`
(`sig.startswith('"')`, tee_client.py line 42). -/
def pyStartsWith (c : Char) (s : String) : Bool :=
  s.data.head? == some c

/-- Python `s.endswith(c)` for a single character `c`
(`sig.endswith('"')`, tee_client.py line 42).  Note that on a one-character
string the same character is both the head and the last element, exactly as
in Python. -/
def pyEndsWith (c : Char) (s : String) : Bool :=
  s.data.getLast? == some c

/-- Python `s[1:-1]` (tee_client.py line 43): drop the first and the last
character; on a one-character string the result is empty, as in Python. -/
def pySlice1m1 (s : String) : String :=
  ⟨(s.data.drop 1).dropLast⟩

/-- Python `s.replace(c, "")` for a single character `c`
(`sig.replace("\\", "")` line 44, `.replace(" ", "")` line 136): delete
every occurrence of `c`, at any position. -/
def pyRemoveAll (c : Char) (s : String) : String :=
  ⟨s.data.filter (fun a => a != c)⟩

/-- Python `str.strip()` whitespace test, restricted to the ASCII
whitespace characters (the configuration strings of this client contain no
non-ASCII whitespace). -/
def pyIsSpace (c : Char) : Bool :=
  c == ' ' || c == '\t' || c == '\n' || c == '\r' || c == '\x0b' || c == '\x0c'

/-- Python `s.strip()` (tee_client.py line 144): remove leading and
trailing whitespace. -/
def pyStrip (s : String) : String :=
  ⟨((s.data.dropWhile pyIsSpace).reverse.dropWhile pyIsSpace).reverse⟩

/-- Helper for Python `s.split(c)`: structural recursion collecting the
current chunk. -/
def pySplitAux (c : Char) : List Char → List Char → List (List Char)
  | [], acc => [acc.reverse]
  | a :: rest, acc =>
      if a == c then acc.reverse :: pySplitAux c rest []
      else pySplitAux c rest (a :: acc)

/-- Python `s.split(c)` for a single-character separator
(`worker_urls_str.split(",")`, tee_client.py line 144).  On the empty
string it yields `[""]`, as in Python. -/
def pySplit (c : Char) (s : String) : List String :=
  (pySplitAux c s.data []).map (fun l => ⟨l⟩)

/-- The signature sanitization performed inline in `add_job`
(tee_client.py lines 42-44) and, twice independently, in
`return_job_result` (lines 69-75): strip one pair of wrapping double
quotes if the string both starts and ends with `"`, then delete every
backslash. -/
def sanitizeSig (sig : String) : String :=
  let sig := if pyStartsWith '"' sig && pyEndsWith '"' sig then pySlice1m1 sig else sig
  pyRemoveAll '\\' sig

/-- Spec-worded restatement of the sanitization rule, used only to compare
with `sanitizeSig` (refinement): "if the string starts and ends with a
double-quote character, remove exactly that one leading and that one
trailing character; then remove every backslash character from the
remaining string, at any position".  Written over the character list with
propositional tests and explicit recursion, independently of the
`pyStartsWith`/`pyRemoveAll` encodings of the source. -/
def removeBackslashesSpec : List Char → List Char
  | [] => []
  | a :: rest =>
      if a = '\\' then removeBackslashesSpec rest
      else a :: removeBackslashesSpec rest

/-- Spec-worded quote stripping: see `removeBackslashesSpec`. -/
def stripWrapQuotesSpec (l : List Char) : List Char :=
  if l.head? = some '"' ∧ l.getLast? = some '"' then (l.drop 1).dropLast else l

/-- Spec-worded sanitization (see `removeBackslashesSpec`,
`stripWrapQuotesSpec`). -/
def sanitizeSpec (s : String) : String :=
  ⟨removeBackslashesSpec (stripWrapQuotesSpec s.data)⟩

theorem removeBackslashesSpec_eq_filter (l : List Char) :
    removeBackslashesSpec l = l.filter (fun a => a != '\\') := by
  induction l with
  | nil => rfl
  | cons a rest ih =>
      by_cases h : a = '\\' <;>
        simp [removeBackslashesSpec, List.filter_cons, h, ih, bne_iff_ne]

theorem sanitizeSig_eq_sanitizeSpec (s : String) :
    sanitizeSig s = sanitizeSpec s := by
  unfold sanitizeSig sanitizeSpec stripWrapQuotesSpec
  rw [removeBackslashesSpec_eq_filter]
  by_cases h : s.data.head? = some '"' ∧ s.data.getLast? = some '"'
  · simp [pyStartsWith, pyEndsWith, pySlice1m1, pyRemoveAll, h]
  · simp only [pyStartsWith, pyEndsWith, pyRemoveAll]
    rw [if_neg h]
    rcases Decidable.not_and_iff_or_not.mp h with h1 | h1 <;>
      simp [h1]

/-- A Python exception raised during one HTTP interaction:
`response.raise_for_status()` on a non-2xx status, a transport failure
inside `httpx`, a JSON decode failure in `response.json()`, or the
`AttributeError` from calling `.get` on a non-dict value. -/
inductive PyExn where
  | httpStatusError (status : Nat)
  | transportError
  | jsonDecodeError
  | attributeError
  deriving DecidableEq

/-- A decoded JSON value (`response.json()`).  Numbers are modelled as
integers; no claim depends on fractional numeric responses. -/
inductive JVal where
  | null
  | bool (b : Bool)
  | num (n : Int)
  | str (s : String)
  | arr (elems : List JVal)
  | obj (fields : List (String × JVal))

/-- Python truthiness of a decoded JSON value: `None`, `False`, `0`, `""`,
`[]` and `{}` are falsy, everything else truthy. -/
def JVal.truthy : JVal → Bool
  | .null => false
  | .bool b => b
  | .num n => n != 0
  | .str s => s != ""
  | .arr [] => false
  | .arr (_ :: _) => true
  | .obj [] => false
  | .obj (_ :: _) => true

/-- First-match lookup in a JSON object's field list (Python `dict` lookup;
`json.loads` keeps the last duplicate key, so object field lists here are
taken duplicate-free). -/
def lookupField : List (String × JVal) → String → Option JVal
  | [], _ => none
  | (k, v) :: rest, key => if k = key then some v else lookupField rest key

/-- Python `json_response.get("uid")` (tee_client.py line 54): on a dict it
returns the value or `None` (never raises); on any other value `.get`
raises `AttributeError`. -/
def jvalGet (j : JVal) (key : String) : Except PyExn (Option JVal) :=
  match j with
  | .obj fields => .ok (lookupField fields key)
  | _ => .error .attributeError

/-- The remote TEE worker as seen by one client, abstracting the HTTP
transport: each field gives the outcome of one request of the wire
protocol, as a function of the request data the client sends.  An
`Except.error` outcome models any exception raised while performing the
request (non-2xx status via `raise_for_status`, transport failure, body
decode failure). -/
structure TeeEnv where
  /-- Outcome of `POST /job/generate` (fixed body): raw text body. -/
  generateResp : Except PyExn String
  /-- Outcome of `POST /job/add` with `{"encrypted_job": sig}`, as a
  function of the sanitized signature: decoded JSON body. -/
  addResp : String → Except PyExn JVal
  /-- Outcome of `GET /job/status/{job_uuid}`, as a function of the id
  value interpolated into the URL: raw text body. -/
  statusResp : Option JVal → Except PyExn String
  /-- Outcome of `POST /job/result` with
  `{"encrypted_result": resultSig, "encrypted_request": sig}`, as a
  function of the two sanitized signatures (in that order): decoded JSON
  body. -/
  resultResp : String → String → Except PyExn JVal

/-- `SimpleTelemetryClient.generate_twitter_job` (tee_client.py lines
20-37): posts the fixed job template and returns the raw response body as
the signature; any HTTP failure raises. -/
def generate_twitter_job (env : TeeEnv) : Except PyExn String :=
  env.generateResp

/-- `SimpleTelemetryClient.add_job` (tee_client.py lines 39-54): sanitizes
the signature, posts it, and returns `json_response.get("uid")` — an
absent field yields `none`, not an exception. -/
def add_job (env : TeeEnv) (sig : String) : Except PyExn (Option JVal) := do
  let sig := sanitizeSig sig
  let jsonResponse ← env.addResp sig
  jvalGet jsonResponse "uid"

/-- `SimpleTelemetryClient.check_job` (tee_client.py lines 56-64): GETs the
status for the job id and returns the raw response body. -/
def check_job (env : TeeEnv) (jobUuid : Option JVal) : Except PyExn String :=
  env.statusResp jobUuid

/-- `SimpleTelemetryClient.return_job_result` (tee_client.py lines 66-85):
sanitizes both signatures independently and posts them. -/
def return_job_result (env : TeeEnv) (sig resultSig : String) :
    Except PyExn JVal :=
  let resultSig := sanitizeSig resultSig
  let sig := sanitizeSig sig
  env.resultResp resultSig sig

/-- The body of the `try` block of
`SimpleTelemetryClient.execute_twitter_sequence` (tee_client.py lines
89-110): the strict generate → submit → poll → finalize chain,
short-circuiting on the first exception. -/
def twitterSequenceChain (env : TeeEnv) : Except PyExn JVal := do
  let sig ← generate_twitter_job env
  let jobUuid ← add_job env sig
  let statusSig ← check_job env jobUuid
  let result ← return_job_result env sig statusSig
  pure result

/-- `SimpleTelemetryClient.execute_twitter_sequence` (tee_client.py lines
87-113): the chain wrapped in the `try`/`except Exception` boundary that
logs and returns `None`. -/
def execute_twitter_sequence (env : TeeEnv) : Option JVal :=
  match twitterSequenceChain env with
  | .ok result => some result
  | .error _ => none

/-- Per-endpoint counters (tee_client.py lines 154-157): the entry
`telemetry_results[ip]` with keys `twitter_sequences` (the spec's
"attempted"), `successful` ("succeeded") and `failed`. -/
structure Stats where
  twitter_sequences : Nat
  successful : Nat
  failed : Nat
  deriving DecidableEq

/-- The initial counters `{"twitter_sequences": 0, "successful": 0,
"failed": 0}` (tee_client.py line 155). -/
def initialStats : Stats := ⟨0, 0, 0⟩

/-- Python truthiness of the `Optional[Dict]` returned by
`execute_twitter_sequence`, as tested by `if result:`
(tee_client.py line 123): `None` is falsy, otherwise the dict's own
truthiness applies (an empty dict is falsy). -/
def pyTruthyOpt : Option JVal → Bool
  | none => false
  | some v => v.truthy

/-- `execute_twitter_sequence_for_client` (tee_client.py lines 116-131),
restricted to one endpoint's counter record: run the sequence, increment
`twitter_sequences` unconditionally, then `successful` if the result is
truthy and `failed` otherwise.  The function's own `except` branch (line
129, `failed += 1` without touching `twitter_sequences`) is unreachable
here: `execute_twitter_sequence` is total and the dictionary access cannot
fail because the driver creates an entry for every endpoint it iterates. -/
def execute_twitter_sequence_for_client (env : TeeEnv) (stats : Stats) :
    Stats :=
  let result := execute_twitter_sequence env
  let stats := { stats with twitter_sequences := stats.twitter_sequences + 1 }
  if pyTruthyOpt result then
    { stats with successful := stats.successful + 1 }
  else
    { stats with failed := stats.failed + 1 }

/-- The configuration parsing at the top of `main` (tee_client.py lines
136-145): read `WORKER_URLS`, delete every space character
(`.replace(" ", "")`), strip one pair of wrapping double quotes, split on
commas, keep each entry stripped of surrounding whitespace when the
stripped entry is non-empty. -/
def parseWorkerUrls (raw : String) : List String :=
  let s := pyRemoveAll ' ' raw
  let s := if pyStartsWith '"' s && pyEndsWith '"' s then pySlice1m1 s else s
  ((pySplit ',' s).map pyStrip).filter (fun url => url != "")

/-- The parsing procedure exactly as the spec's words describe it
(refinement comparison only): "optionally removing one pair of wrapping
double quotes, splitting on commas, trimming each entry of surrounding
whitespace, and discarding empty entries" — with no global space
deletion. -/
def parseWorkerUrlsClaim (raw : String) : List String :=
  let s := if pyStartsWith '"' raw && pyEndsWith '"' raw then pySlice1m1 raw else raw
  ((pySplit ',' s).map pyStrip).filter (fun url => url != "")

/-- The per-endpoint success-rate computation of the summary block
(tee_client.py lines 193-195): `success_rate = 0`, overwritten by
`successful / twitter_sequences * 100` only when `twitter_sequences > 0`.
Python float division is modelled by exact rational division; the guard
structure is preserved. -/
def success_rate (stats : Stats) : ℚ :=
  if stats.twitter_sequences > 0 then
    (stats.successful : ℚ) / (stats.twitter_sequences : ℚ) * 100
  else 0

/-- Where the operator's SIGINT (`KeyboardInterrupt`) surfaces while
`loop.run_until_complete(main())` is running.  Modelled from the handler
structure of the source (`main`, tee_client.py lines 162-201, whose `try`
wraps only the round loop and whose summary block follows the
`except KeyboardInterrupt`; and the `__main__` block, lines 204-212,
whose own `except KeyboardInterrupt` wraps `run_until_complete`) together
with CPython asyncio semantics: the interrupt is raised in whatever code
the main thread is executing at that moment. -/
inductive InterruptPoint where
  /-- SIGINT arrives while the `main` coroutine's own bytecode is running
  between two await suspensions.  `KeyboardInterrupt` is then raised
  inside `main`'s `try`. -/
  | duringCoroutineStep
  /-- SIGINT arrives while the event loop is blocked in its selector — the
  case whenever the driver is suspended at an `await` (the HTTP calls, the
  round barrier `asyncio.gather`, or the 5-second `asyncio.sleep`).
  `KeyboardInterrupt` is then raised inside the event-loop machinery and
  propagates out of `loop.run_until_complete`; the suspended `main`
  coroutine is abandoned, so its `except KeyboardInterrupt` and everything
  after it never run. -/
  | duringEventLoopWait
  deriving DecidableEq

/-- Whether the summary block (tee_client.py lines 191-201) executes on
the stop path, per interrupt point: `true` only when `main`'s own
`except KeyboardInterrupt` (line 187) catches the interrupt, letting
control fall through to the summary; `false` when the interrupt
propagates out of `run_until_complete` to the `__main__` handler (line
209), which only logs and closes the loop. -/
def summaryPrintedOnStop : InterruptPoint → Bool
  | .duringCoroutineStep => true
  | .duringEventLoopWait => false

theorem pyRemoveAll_idem (c : Char) (s : String) :
    pyRemoveAll c (pyRemoveAll c s) = pyRemoveAll c s := by
  unfold pyRemoveAll
  simp [List.filter_filter]

theorem sanitizeSig_of_not_wrapped (s : String)
    (h : (pyStartsWith '"' s && pyEndsWith '"' s) = false) :
    sanitizeSig s = pyRemoveAll '\\' s := by
  unfold sanitizeSig
  rw [h]
  rfl

theorem sanitizeSig_eq_removeAll (s : String) :
    ∃ t : String, sanitizeSig s = pyRemoveAll '\\' t := by
  unfold sanitizeSig
  exact ⟨_, rfl⟩

/-- A concrete environment whose very first step fails with an HTTP 500. -/
def envGenFail : TeeEnv :=
  ⟨.error (.httpStatusError 500), fun _ => .error .transportError,
   fun _ => .error .transportError, fun _ _ => .error .transportError⟩

/-- C1: every error raised by any of the four steps of the chain is caught
at the boundary of `execute_twitter_sequence` and converted into `none`;
a successful chain yields `some` result.  `execute_twitter_sequence` is a
total function into `Option`, so no exception value ever escapes it. -/
theorem execute_twitter_sequence_error_boundary (env : TeeEnv) :
    (∀ e : PyExn, twitterSequenceChain env = .error e →
      execute_twitter_sequence env = none) ∧
    (∀ r : JVal, twitterSequenceChain env = .ok r →
      execute_twitter_sequence env = some r) := by
  constructor <;> intro x h <;> simp [execute_twitter_sequence, h]

/-- Witness for C1: in the environment whose generate step raises an HTTP
500, the sequence yields an absent result rather than an error. -/
theorem execute_twitter_sequence_error_boundary_witness :
    execute_twitter_sequence envGenFail = none :=
  (execute_twitter_sequence_error_boundary envGenFail).1
    (.httpStatusError 500) rfl

/-- A concrete environment in which all four steps succeed and the
finalize step returns the empty JSON object `{}`. -/
def envEmptyResult : TeeEnv :=
  ⟨.ok "gensig", fun _ => .ok (.obj [("uid", .str "u1")]),
   fun _ => .ok "statussig", fun _ _ => .ok (.obj [])⟩

/-- Counterexample to C2: a sequence in which every step succeeds and the
finalize step returns the empty object produces a result
(`some (JVal.obj [])`), yet the counter update leaves `successful`
unchanged and increments `failed` — "succeeded iff a result was produced"
is false on the code. -/
theorem counter_update_empty_result_refutes :
    execute_twitter_sequence envEmptyResult = some (JVal.obj []) ∧
    (execute_twitter_sequence_for_client envEmptyResult
        initialStats).twitter_sequences = 1 ∧
    (execute_twitter_sequence_for_client envEmptyResult
        initialStats).successful = 0 ∧
    (execute_twitter_sequence_for_client envEmptyResult
        initialStats).failed = 1 :=
  ⟨rfl, rfl, rfl, rfl⟩

/-- C2 amended: the counter update increments `twitter_sequences`
("attempted") exactly once unconditionally, increments `successful`
exactly once iff the sequence's result is truthy in Python's sense
(non-`None` and, for a dict, non-empty), and otherwise increments `failed`
exactly once. -/
theorem counter_update_truthiness (env : TeeEnv) (stats : Stats) :
    (execute_twitter_sequence_for_client env stats).twitter_sequences =
        stats.twitter_sequences + 1 ∧
    (execute_twitter_sequence_for_client env stats).successful =
        (if pyTruthyOpt (execute_twitter_sequence env) then
          stats.successful + 1 else stats.successful) ∧
    (execute_twitter_sequence_for_client env stats).failed =
        (if pyTruthyOpt (execute_twitter_sequence env) then
          stats.failed else stats.failed + 1) := by
  unfold execute_twitter_sequence_for_client
  cases h : pyTruthyOpt (execute_twitter_sequence env) <;> simp [h]

/-- C3: the sanitization applied before reusing a signature behaves exactly
as the spec's rule (`sanitizeSpec`, written in the spec's words): strip one
pair of wrapping double quotes when the string both starts and ends with
one, then delete every backslash anywhere; and `add_job` and
`return_job_result` each apply that rule independently to each signature
they send. -/
theorem sanitize_matches_spec_rule :
    (∀ s : String, sanitizeSig s = sanitizeSpec s) ∧
    (∀ (env : TeeEnv) (sig : String), add_job env sig = do
        let jsonResponse ← env.addResp (sanitizeSpec sig)
        jvalGet jsonResponse "uid") ∧
    (∀ (env : TeeEnv) (sig resultSig : String),
        return_job_result env sig resultSig =
          env.resultResp (sanitizeSpec resultSig) (sanitizeSpec sig)) := by
  refine ⟨sanitizeSig_eq_sanitizeSpec, ?_, ?_⟩
  · intro env sig
    unfold add_job
    rw [sanitizeSig_eq_sanitizeSpec]
  · intro env sig resultSig
    unfold return_job_result
    rw [sanitizeSig_eq_sanitizeSpec, sanitizeSig_eq_sanitizeSpec]

/-- Counterexample to C4: the string `""a""` is in the image of the
sanitization (it is the sanitization of itself wrapped once more, and
indeed `sanitizeSig` maps `""a""` to `"a"`), yet applying the sanitization
twice differs from applying it once — the function is not idempotent on
its image. -/
theorem sanitize_not_idempotent_on_image :
    sanitizeSig "\"\"a\"\"" = "\"a\"" ∧
    sanitizeSig (sanitizeSig "\"\"a\"\"") = "a" ∧
    sanitizeSig (sanitizeSig "\"\"a\"\"") ≠ sanitizeSig "\"\"a\"\"" := by
  refine ⟨rfl, rfl, ?_⟩
  decide

/-- C4 amended: the sanitization is idempotent on every input whose
sanitized form is not again wrapped in double quotes (in particular on
already-clean input), and it strips exactly one pair of wrapping quotes:
`"abc"` (with quotes) maps to `abc`, `a\b\c` maps to `abc`, and `abc` is
unchanged. -/
theorem sanitize_idempotent_on_unwrapped :
    (∀ s : String,
      ¬(pyStartsWith '"' (sanitizeSig s) = true ∧
        pyEndsWith '"' (sanitizeSig s) = true) →
      sanitizeSig (sanitizeSig s) = sanitizeSig s) ∧
    sanitizeSig "\"abc\"" = "abc" ∧
    sanitizeSig "a\\b\\c" = "abc" ∧
    sanitizeSig "abc" = "abc" := by
  refine ⟨?_, rfl, rfl, rfl⟩
  intro s h
  have hg : (pyStartsWith '"' (sanitizeSig s) &&
      pyEndsWith '"' (sanitizeSig s)) = false := by
    cases ha : pyStartsWith '"' (sanitizeSig s) <;>
      cases hb : pyEndsWith '"' (sanitizeSig s) <;> simp_all
  rw [sanitizeSig_of_not_wrapped _ hg]
  unfold sanitizeSig
  exact pyRemoveAll_idem '\\' _

/-- Witness for C4 amended: the already-clean string `a\b\c` sanitizes to
`abc`, which is not quote-wrapped, and a second application leaves it
unchanged. -/
theorem sanitize_idempotent_on_unwrapped_witness :
    sanitizeSig (sanitizeSig "a\\b\\c") = sanitizeSig "a\\b\\c" :=
  sanitize_idempotent_on_unwrapped.1 "a\\b\\c" (by decide)

/-- Counterexample to C5: on a configuration string whose single entry
contains an interior space, the code deletes the space from the address
(`.replace(" ", "")` runs first), while the claim's procedure (trim
surrounding whitespace only) preserves it. -/
theorem parse_interior_space_refutes :
    parseWorkerUrls "http://a b:8080" = ["http://ab:8080"] ∧
    parseWorkerUrlsClaim "http://a b:8080" = ["http://a b:8080"] ∧
    parseWorkerUrls "http://a b:8080" ≠
      parseWorkerUrlsClaim "http://a b:8080" := by
  refine ⟨rfl, rfl, ?_⟩
  decide

/-- C5 amended: the parsed endpoint list is obtained by first deleting
every space character anywhere in the configuration string, then
optionally removing one pair of wrapping double quotes, splitting on
commas, trimming each entry of surrounding whitespace, and discarding
empty entries; the spec's example parses as stated. -/
theorem parse_worker_urls_spec :
    (∀ raw : String,
      parseWorkerUrls raw = parseWorkerUrlsClaim (pyRemoveAll ' ' raw)) ∧
    parseWorkerUrls "  http://a:8080 , http://b:8080 " =
      ["http://a:8080", "http://b:8080"] :=
  ⟨fun _ => rfl, rfl⟩

/-- C9: configuration parsing first deletes every space character from the
whole string, then performs quote stripping and comma splitting on the
space-free string; an entry with interior spaces loses them, and a quoted
list with spaces outside the quotes is still unwrapped. -/
theorem parse_removes_all_spaces :
    (∀ raw : String,
      parseWorkerUrls raw = parseWorkerUrlsClaim (pyRemoveAll ' ' raw)) ∧
    parseWorkerUrls "http://x:80 80,b" = ["http://x:8080", "b"] ∧
    parseWorkerUrls " \"http://a:1,http://b:2\" " =
      ["http://a:1", "http://b:2"] :=
  ⟨fun _ => rfl, rfl, rfl⟩

/-- A concrete environment whose add step succeeds with a JSON object that
has no `uid` field. -/
def envNoUid : TeeEnv :=
  ⟨.ok "gensig", fun _ => .ok (.obj [("status", .str "ok")]),
   fun _ => .ok "statussig", fun _ _ => .ok (.obj [("work", .str "w")])⟩

/-- C6: when the structured response to the add step is an object lacking
the `uid` field, `add_job` raises no distinct error: it returns the absent
value `none` wrapped in a successful outcome. -/
theorem add_job_missing_uid_absent (env : TeeEnv) (sig : String)
    (fields : List (String × JVal))
    (hresp : env.addResp (sanitizeSig sig) = .ok (.obj fields))
    (hmiss : lookupField fields "uid" = none) :
    add_job env sig = .ok none := by
  unfold add_job
  show (do
      let jsonResponse ← env.addResp (sanitizeSig sig)
      jvalGet jsonResponse "uid") = .ok none
  rw [hresp]
  show jvalGet (.obj fields) "uid" = .ok none
  unfold jvalGet
  show Except.ok (lookupField fields "uid") = .ok none
  rw [hmiss]

/-- Witness for C6: in a concrete environment whose add response is
`{"status": "ok"}`, submit returns the absent id. -/
theorem add_job_missing_uid_absent_witness :
    add_job envNoUid "sig" = .ok none :=
  add_job_missing_uid_absent envNoUid "sig" [("status", .str "ok")] rfl rfl

/-- C7: the summary's success rate is `successful / twitter_sequences *
100` when at least one sequence was attempted and `0` otherwise; the
divisor is nonzero whenever the division is evaluated, so the
division-by-zero branch is unreachable. -/
theorem success_rate_guarded (stats : Stats) :
    (stats.twitter_sequences = 0 → success_rate stats = 0) ∧
    (0 < stats.twitter_sequences →
      success_rate stats =
        (stats.successful : ℚ) / (stats.twitter_sequences : ℚ) * 100 ∧
      (stats.twitter_sequences : ℚ) ≠ 0) := by
  constructor
  · intro h
    unfold success_rate
    rw [h]
    rfl
  · intro h
    refine ⟨?_, ?_⟩
    · unfold success_rate
      rw [if_pos h]
    · exact_mod_cast Nat.pos_iff_ne_zero.mp h

/-- Witness for C7: zero attempts report rate 0; two attempts with one
success report 50. -/
theorem success_rate_guarded_witness :
    success_rate ⟨0, 0, 0⟩ = 0 ∧ success_rate ⟨2, 1, 1⟩ = 50 := by
  refine ⟨(success_rate_guarded ⟨0, 0, 0⟩).1 rfl, ?_⟩
  have h := (success_rate_guarded ⟨2, 1, 1⟩).2 (by decide)
  rw [h.1]
  norm_num

/-- C8 (code bug): the summary is not printed on every stop path.  When
the interrupt arrives while the event loop is blocked at an await — the
dominant case, e.g. during the 5-second inter-round sleep — the
`KeyboardInterrupt` propagates out of `loop.run_until_complete`, the
`main` coroutine is abandoned before its summary block, and the `__main__`
handler only logs; the summary block is skipped. -/
theorem summary_skipped_on_event_loop_interrupt :
    summaryPrintedOnStop .duringEventLoopWait = false ∧
    ¬(∀ p : InterruptPoint, summaryPrintedOnStop p = true) := by
  refine ⟨rfl, ?_⟩
  intro h
  exact absurd (h .duringEventLoopWait) (by decide)

/-- C10: sanitizing the one-character string consisting of a single double
quote yields the empty string — the start and end tests both succeed on
the same character, and the slice leaves nothing. -/
theorem sanitize_single_quote_char :
    pyStartsWith '"' "\"" = true ∧
    pyEndsWith '"' "\"" = true ∧
    sanitizeSig "\"" = "" := by
  decide
